import Mathlib

/-!
Shallow embedding of `src/js/beam-analysis.js`.

Modelling decisions:
* JS numbers are modelled as `ℚ`.  The claims under study are exact
  algebraic statements, and every division that a claim touches is guarded
  by positivity hypotheses taken from the claim itself.
* A JS value that is `NaN` (arising from arithmetic on `undefined`) is
  modelled as `none` in an `Option ℚ`; an argument that may be omitted at a
  call site (JS `undefined`) is an `Option ℚ` parameter, `none` meaning
  "omitted".
* A thrown JS `Error(msg)` is modelled as `Except.error msg`; every
  equation closure returns `Except String Sample`.
* JS result objects `{x, y}` (optionally with extra debug fields `EI`,
  `R1`, `M` in the two-span variant) are modelled by one `Sample` record
  whose optional fields are `none` when the source object omits them.
-/

/-- `Material(name, properties)` from the source; only the `EI` property is
ever read, so `properties` is modelled by its `EI` entry. -/
structure Material where
  name : String
  EI : ℚ
deriving DecidableEq

/-- `Beam(primarySpan, secondarySpan, material)` from the source. -/
structure Beam where
  primarySpan : ℚ
  secondarySpan : ℚ
  material : Material
deriving DecidableEq

/-- Result object of one equation evaluation.  Fields beyond `x` are
`Option`s: `y` is `none` when the JS value would be `NaN`; `EI`, `R1`, `M`
are `none` when the source object does not carry that field. -/
structure Sample where
  x : ℚ
  y : Option ℚ
  EI : Option ℚ
  R1 : Option ℚ
  M : Option ℚ
deriving DecidableEq

/-- The `y` field of an `ok` sample; `none` on a thrown error. -/
def yVal (r : Except String Sample) : Option ℚ :=
  match r with
  | Except.ok s => s.y
  | Except.error _ => none

namespace SimplySupported

/-- `BeamAnalysis.analyzer.simplySupported.prototype.getDeflectionEquation`
(source lines 107-123).  The returned closure takes `x` and an optional
`j2` whose JS default is `2` (`j2 = 2` in the source), and its bounds test
is the source's `x >= 0 || x <= beam.primarySpan` (an OR). -/
def getDeflectionEquation (beam : Beam) (load : ℚ) : ℚ → Option ℚ → Except String Sample :=
  fun x j2opt =>
    let j2 := j2opt.getD 2
    if x ≥ 0 ∨ x ≤ beam.primarySpan then
      let w := load
      let L := beam.primarySpan
      let EI := beam.material.EI
      let deflection := (-((w * x) / (24 * (EI / 1000 ^ 3)))) * (L ^ 3 - 2 * L * x ^ 2 + x ^ 3) * j2 * 1000
      Except.ok (Sample.mk x (some deflection) none none none)
    else
      Except.error "x is out of bounds"

/-- `simplySupported.prototype.getBendingMomentEquation` (source lines
125-139); bounds test `x >= 0 && x <= beam.primarySpan`. -/
def getBendingMomentEquation (beam : Beam) (load : ℚ) : ℚ → Except String Sample :=
  fun x =>
    if x ≥ 0 ∧ x ≤ beam.primarySpan then
      let w := load
      let L := beam.primarySpan
      let bendingMoment := -((w * x / 2) * (L - x))
      Except.ok (Sample.mk x (some bendingMoment) none none none)
    else
      Except.error "x is out of bounds"

/-- `simplySupported.prototype.getShearForceEquation` (source lines
141-153); bounds test `x >= 0 && x <= beam.primarySpan`. -/
def getShearForceEquation (beam : Beam) (load : ℚ) : ℚ → Except String Sample :=
  fun x =>
    if x ≥ 0 ∧ x ≤ beam.primarySpan then
      let shearForce := load * (beam.primarySpan / 2 - x)
      Except.ok (Sample.mk x (some shearForce) none none none)
    else
      Except.error "x is out of bounds"

end SimplySupported

namespace TwoSpanUnequal

/-- Interior moment `m` of the two-span derivation, transcribing
`m = -((w * Math.pow(L2, 3)) + (w * Math.pow(L1, 3))) / (8 * (L1 + L2))`
which every two-span equation recomputes inline (source lines 172, 211,
245). -/
def interiorM (L1 L2 w : ℚ) : ℚ :=
  (-((w * L2 ^ 3) + (w * L1 ^ 3))) / (8 * (L1 + L2))

/-- Left reaction `R1 = (m / L1) + (w * L1 * 0.5)` (source lines 173, 212,
246; line 212 writes the same product as `(w * L1) * 0.5`). -/
def reactR1 (L1 L2 w : ℚ) : ℚ :=
  interiorM L1 L2 w / L1 + w * L1 * (1 / 2)

/-- Right reaction `R3 = (m / L2) + (w * L2 * 0.5)` (source lines 174, 213,
247; lines 213 and 247 write the same term as `(m / L2) + ((w * L2) / 2)`). -/
def reactR3 (L1 L2 w : ℚ) : ℚ :=
  interiorM L1 L2 w / L2 + w * L2 * (1 / 2)

/-- Interior reaction `R2 = (w * (L1 + L2)) - R1 - R3` (source lines 175,
214, 248; lines 214 and 248 write the first term as `(w * L1) + (w * L2)`,
the same rational value). -/
def reactR2 (L1 L2 w : ℚ) : ℚ :=
  w * (L1 + L2) - reactR1 L1 L2 w - reactR3 L1 L2 w

/-- `BeamAnalysis.analyzer.twoSpanUnequal.prototype.getDeflectionEquation`
(source lines 165-201).  The returned closure takes `x` and `j2`; `j2` has
NO default in the source (`function (x, j2)`), so an omitted `j2` is JS
`undefined` and the computed deflection is `NaN` (modelled: `y = none`).
The body performs no bounds check and never throws.  `EI_kNm2` is
`EI / Math.pow(1000, 4)` (source line 179) and is returned in the sample's
`EI` field; the final `y` is `deflection / 1000000` (source line 198). -/
def getDeflectionEquation (beam : Beam) (load : ℚ) : ℚ → Option ℚ → Except String Sample :=
  fun x j2opt =>
    let w := load
    let L1 := beam.primarySpan
    let L2 := beam.secondarySpan
    let EI := beam.material.EI
    let R1 := reactR1 L1 L2 w
    let R2 := reactR2 L1 L2 w
    let EI_kNm2 := EI / 1000 ^ 4
    match j2opt with
    | none => Except.ok (Sample.mk x none (some EI_kNm2) none none)
    | some j2 =>
      let deflection :=
        if x ≤ L1 then
          ((x / (24 * EI_kNm2)) *
            ((4 * R1 * x ^ 2) - (w * x ^ 3) + (w * L1 ^ 3) - (4 * R1 * L1 ^ 2))
            * 1000 * j2) * 1000
        else
          (((R1 * x / 6) * (x ^ 2 - L1 ^ 2)) +
            ((R2 * x / 6) * (x ^ 2 - (3 * L1 * x) + 3 * L1 ^ 2)) -
            (R2 * L1 ^ 3 / 6) -
            ((w * x / 24) * (x ^ 3 - L1 ^ 3))) / EI_kNm2 * 1000 * j2
      Except.ok (Sample.mk x (some (deflection / 1000000)) (some EI_kNm2) none none)

/-- `twoSpanUnequal.prototype.getBendingMomentEquation` (source lines
204-236).  No bounds check; four branches on `x` (`x == 0 || x ==
totalLength`, `x < L1`, `x > L1`, else i.e. `x == L1`); the sample carries
debug fields `R1` and `M` (source lines 229-234). -/
def getBendingMomentEquation (beam : Beam) (load : ℚ) : ℚ → Except String Sample :=
  fun x =>
    let w := load
    let L1 := beam.primarySpan
    let L2 := beam.secondarySpan
    let totalLength := L1 + L2
    let m := interiorM L1 L2 w
    let R1 := reactR1 L1 L2 w
    let R2 := reactR2 L1 L2 w
    let bendingMoment :=
      if x = 0 ∨ x = totalLength then 0
      else if x < L1 then -(R1 * x - (1 / 2) * w * x ^ 2)
      else if x > L1 then -((R1 * x + R2 * (x - L1)) - ((1 / 2) * w * x ^ 2))
      else -(R1 * L1 - ((1 / 2) * w * L1 ^ 2))
    Except.ok (Sample.mk x (some bendingMoment) none (some R1) (some m))

/-- `twoSpanUnequal.prototype.getShearForceEquation` (source lines
239-262).  No bounds check; branches on `x <= L1`. -/
def getShearForceEquation (beam : Beam) (load : ℚ) : ℚ → Except String Sample :=
  fun x =>
    let w := load
    let L1 := beam.primarySpan
    let L2 := beam.secondarySpan
    let R1 := reactR1 L1 L2 w
    let R2 := reactR2 L1 L2 w
    let shearForce :=
      if x ≤ L1 then R1 - w * x
      else (R1 + R2) - w * x
    Except.ok (Sample.mk x (some shearForce) none none none)

end TwoSpanUnequal

/-- The two analyzer objects held by the engine's `this.analyzer` table
(source lines 35-38). -/
inductive AnalyzerKind where
  | simplySupported : AnalyzerKind
  | twoSpanUnequal : AnalyzerKind

/-- Method dispatch `analyzer.getDeflectionEquation(beam, load)`. -/
def AnalyzerKind.deflectionEquation : AnalyzerKind → Beam → ℚ → (ℚ → Option ℚ → Except String Sample)
  | AnalyzerKind.simplySupported => SimplySupported.getDeflectionEquation
  | AnalyzerKind.twoSpanUnequal => TwoSpanUnequal.getDeflectionEquation

/-- Method dispatch `analyzer.getBendingMomentEquation(beam, load)`. -/
def AnalyzerKind.bendingMomentEquation : AnalyzerKind → Beam → ℚ → (ℚ → Except String Sample)
  | AnalyzerKind.simplySupported => SimplySupported.getBendingMomentEquation
  | AnalyzerKind.twoSpanUnequal => TwoSpanUnequal.getBendingMomentEquation

/-- Method dispatch `analyzer.getShearForceEquation(beam, load)`. -/
def AnalyzerKind.shearForceEquation : AnalyzerKind → Beam → ℚ → (ℚ → Except String Sample)
  | AnalyzerKind.simplySupported => SimplySupported.getShearForceEquation
  | AnalyzerKind.twoSpanUnequal => TwoSpanUnequal.getShearForceEquation

/-- Lookup `this.analyzer[condition]` (source lines 35-38, 49, 63, 77):
`undefined` (here `none`) for every key outside the two-entry table. -/
def analyzerTable (condition : String) : Option AnalyzerKind :=
  if condition = "simply-supported" then some AnalyzerKind.simplySupported
  else if condition = "two-span-unequal" then some AnalyzerKind.twoSpanUnequal
  else none

/-- Engine result `{beam: beam, load: load, equation: ...}` (source lines
52-56, 66-70, 80-84), parametric in the equation's type since the
deflection closure takes an extra optional argument. -/
structure EngineResult (α : Type) where
  beam : Beam
  load : ℚ
  equation : α

namespace BeamAnalysis

/-- `BeamAnalysis.prototype.getDeflection` (source lines 48-60): table
lookup then `{beam, load, equation}` on a hit, `throw new Error('Invalid
condition')` on a miss. -/
def getDeflection (beam : Beam) (load : ℚ) (condition : String) :
    Except String (EngineResult (ℚ → Option ℚ → Except String Sample)) :=
  match analyzerTable condition with
  | some analyzer => Except.ok (EngineResult.mk beam load (analyzer.deflectionEquation beam load))
  | none => Except.error "Invalid condition"

/-- `BeamAnalysis.prototype.getBendingMoment` (source lines 62-74). -/
def getBendingMoment (beam : Beam) (load : ℚ) (condition : String) :
    Except String (EngineResult (ℚ → Except String Sample)) :=
  match analyzerTable condition with
  | some analyzer => Except.ok (EngineResult.mk beam load (analyzer.bendingMomentEquation beam load))
  | none => Except.error "Invalid condition"

/-- `BeamAnalysis.prototype.getShearForce` (source lines 76-88). -/
def getShearForce (beam : Beam) (load : ℚ) (condition : String) :
    Except String (EngineResult (ℚ → Except String Sample)) :=
  match analyzerTable condition with
  | some analyzer => Except.ok (EngineResult.mk beam load (analyzer.shearForceEquation beam load))
  | none => Except.error "Invalid condition"

end BeamAnalysis

/-- C8: for the simply-supported condition with span `L = primarySpan` and
load `w`, the bending moment equation at every in-range `x` returns
`y = -(w*x/2)*(L - x)`; for `Beam(4, 0, {EI: 210000})` with load `10` the
moment at `x = 2` is `-20`; and `M(x) = M(L - x)` for every valid `x`. -/
theorem claimC8_simply_moment (beam : Beam) (w x : ℚ)
    (hx0 : 0 ≤ x) (hxL : x ≤ beam.primarySpan) :
    SimplySupported.getBendingMomentEquation beam w x
      = Except.ok (Sample.mk x (some (-((w * x / 2) * (beam.primarySpan - x)))) none none none)
    ∧ yVal (SimplySupported.getBendingMomentEquation (Beam.mk 4 0 (Material.mk "steel" 210000)) 10 2)
        = some (-20)
    ∧ yVal (SimplySupported.getBendingMomentEquation beam w (beam.primarySpan - x))
        = yVal (SimplySupported.getBendingMomentEquation beam w x) := by
  refine ⟨?_, ?_, ?_⟩
  · unfold SimplySupported.getBendingMomentEquation
    rw [if_pos ⟨hx0, hxL⟩]
  · norm_num [SimplySupported.getBendingMomentEquation, yVal]
  · have h1 : (0 : ℚ) ≤ beam.primarySpan - x := by linarith
    have h2 : beam.primarySpan - x ≤ beam.primarySpan := by linarith
    unfold SimplySupported.getBendingMomentEquation
    rw [if_pos ⟨h1, h2⟩, if_pos ⟨hx0, hxL⟩]
    simp only [yVal, Option.some_inj]
    ring

/-- Witness for C8 at `beam = Beam(4, 0, {EI: 210000})`, `w = 10`,
`x = 1`. -/
theorem claimC8_witness :
    (0 : ℚ) ≤ 1 ∧ (1 : ℚ) ≤ (Beam.mk 4 0 (Material.mk "steel" 210000)).primarySpan ∧
    (SimplySupported.getBendingMomentEquation (Beam.mk 4 0 (Material.mk "steel" 210000)) 10 1
      = Except.ok (Sample.mk 1 (some (-((10 * 1 / 2) * ((Beam.mk 4 0 (Material.mk "steel" 210000)).primarySpan - 1)))) none none none)
    ∧ yVal (SimplySupported.getBendingMomentEquation (Beam.mk 4 0 (Material.mk "steel" 210000)) 10 2)
        = some (-20)
    ∧ yVal (SimplySupported.getBendingMomentEquation (Beam.mk 4 0 (Material.mk "steel" 210000)) 10 ((Beam.mk 4 0 (Material.mk "steel" 210000)).primarySpan - 1))
        = yVal (SimplySupported.getBendingMomentEquation (Beam.mk 4 0 (Material.mk "steel" 210000)) 10 1)) :=
  ⟨by norm_num, by norm_num,
    claimC8_simply_moment (Beam.mk 4 0 (Material.mk "steel" 210000)) 10 1 (by norm_num) (by norm_num)⟩

/-- C7: for the simply-supported condition, the deflection equation at
every in-range `x` returns
`y = -(w*x/(24*EI')) * (L^3 - 2*L*x^2 + x^3) * scale * 1000` with
`EI' = EI/1000^3` and the scale factor defaulting to `2` when omitted;
consequently for `L = 1`, any `w` and any positive `EI`, the deflection at
`x = 0` and at `x = L` equals `0`. -/
theorem claimC7_simply_deflection (beam : Beam) (w x : ℚ) (j2opt : Option ℚ)
    (hx0 : 0 ≤ x) (_hxL : x ≤ beam.primarySpan) :
    SimplySupported.getDeflectionEquation beam w x j2opt
      = Except.ok (Sample.mk x (some ((-((w * x) / (24 * (beam.material.EI / 1000 ^ 3))))
          * (beam.primarySpan ^ 3 - 2 * beam.primarySpan * x ^ 2 + x ^ 3)
          * (j2opt.getD 2) * 1000)) none none none)
    ∧ (beam.primarySpan = 1 → 0 < beam.material.EI →
        yVal (SimplySupported.getDeflectionEquation beam w 0 none) = some 0
        ∧ yVal (SimplySupported.getDeflectionEquation beam w 1 none) = some 0) := by
  constructor
  · unfold SimplySupported.getDeflectionEquation
    rw [if_pos (Or.inl hx0)]
  · intro hL _
    unfold SimplySupported.getDeflectionEquation
    rw [hL]
    constructor
    · rw [if_pos (Or.inl le_rfl)]
      simp [yVal]
    · rw [if_pos (Or.inl (by norm_num))]
      simp [yVal]
      norm_num

/-- Witness for C7 at `beam = Beam(1, 0, {EI: 5})`, `w = 3`, `x = 1/2`,
scale factor omitted. -/
theorem claimC7_witness :
    (0 : ℚ) ≤ 1 / 2 ∧ (1 / 2 : ℚ) ≤ (Beam.mk 1 0 (Material.mk "m" 5)).primarySpan ∧
    (SimplySupported.getDeflectionEquation (Beam.mk 1 0 (Material.mk "m" 5)) 3 (1 / 2) none
      = Except.ok (Sample.mk (1 / 2) (some ((-((3 * (1 / 2)) / (24 * ((Beam.mk 1 0 (Material.mk "m" 5)).material.EI / 1000 ^ 3))))
          * ((Beam.mk 1 0 (Material.mk "m" 5)).primarySpan ^ 3 - 2 * (Beam.mk 1 0 (Material.mk "m" 5)).primarySpan * (1 / 2) ^ 2 + (1 / 2) ^ 3)
          * ((none : Option ℚ).getD 2) * 1000)) none none none)
    ∧ ((Beam.mk 1 0 (Material.mk "m" 5)).primarySpan = 1 → 0 < (Beam.mk 1 0 (Material.mk "m" 5)).material.EI →
        yVal (SimplySupported.getDeflectionEquation (Beam.mk 1 0 (Material.mk "m" 5)) 3 0 none) = some 0
        ∧ yVal (SimplySupported.getDeflectionEquation (Beam.mk 1 0 (Material.mk "m" 5)) 3 1 none) = some 0)) :=
  ⟨by norm_num, by norm_num,
    claimC7_simply_deflection (Beam.mk 1 0 (Material.mk "m" 5)) 3 (1 / 2) none (by norm_num) (by norm_num)⟩

/-- C9: for the simply-supported condition, the shear force equation at
every in-range `x` returns `y = w*(L/2 - x)` (linear in `x`), and for
nonzero `w` the value is `0` exactly at `x = L/2`. -/
theorem claimC9_simply_shear (beam : Beam) (w x : ℚ)
    (hx0 : 0 ≤ x) (hxL : x ≤ beam.primarySpan) :
    SimplySupported.getShearForceEquation beam w x
      = Except.ok (Sample.mk x (some (w * (beam.primarySpan / 2 - x))) none none none)
    ∧ (w ≠ 0 → (yVal (SimplySupported.getShearForceEquation beam w x) = some 0
        ↔ x = beam.primarySpan / 2)) := by
  have h1 : SimplySupported.getShearForceEquation beam w x
      = Except.ok (Sample.mk x (some (w * (beam.primarySpan / 2 - x))) none none none) := by
    unfold SimplySupported.getShearForceEquation
    rw [if_pos ⟨hx0, hxL⟩]
  refine ⟨h1, fun hw => ?_⟩
  rw [h1]
  simp only [yVal, Option.some_inj]
  constructor
  · intro h
    rcases mul_eq_zero.mp h with h' | h'
    · exact absurd h' hw
    · linarith
  · intro h
    rw [h]
    ring

/-- Witness for C9 at `beam = Beam(4, 0, {EI: 7})`, `w = 5`, `x = 2`. -/
theorem claimC9_witness :
    (0 : ℚ) ≤ 2 ∧ (2 : ℚ) ≤ (Beam.mk 4 0 (Material.mk "m" 7)).primarySpan ∧
    (SimplySupported.getShearForceEquation (Beam.mk 4 0 (Material.mk "m" 7)) 5 2
      = Except.ok (Sample.mk 2 (some (5 * ((Beam.mk 4 0 (Material.mk "m" 7)).primarySpan / 2 - 2))) none none none)
    ∧ ((5 : ℚ) ≠ 0 → (yVal (SimplySupported.getShearForceEquation (Beam.mk 4 0 (Material.mk "m" 7)) 5 2) = some 0
        ↔ (2 : ℚ) = (Beam.mk 4 0 (Material.mk "m" 7)).primarySpan / 2))) :=
  ⟨by norm_num, by norm_num,
    claimC9_simply_shear (Beam.mk 4 0 (Material.mk "m" 7)) 5 2 (by norm_num) (by norm_num)⟩

/-- C1 divergence: the simply-supported DEFLECTION equation's bounds test
is `x >= 0 || x <= beam.primarySpan` (source line 109), which every
rational `x` satisfies when the span is nonnegative, so the deflection
equation returns a sample at `x = 2 > primarySpan = 1` and at `x = -1 < 0`
instead of failing; the bending moment and shear force equations, whose
test uses `&&`, do fail at `x = 2`.  Beam: `Beam(1, 0, {EI: 24e9})`, load
`10`. -/
theorem claimC1_divergence :
    SimplySupported.getDeflectionEquation (Beam.mk 1 0 (Material.mk "steel" (24 * 10 ^ 9))) 10 2 none
      = Except.ok (Sample.mk 2 (some (-625 / 9)) none none none)
    ∧ SimplySupported.getDeflectionEquation (Beam.mk 1 0 (Material.mk "steel" (24 * 10 ^ 9))) 10 (-1) none
      = Except.ok (Sample.mk (-1) (some (-625 / 9)) none none none)
    ∧ SimplySupported.getBendingMomentEquation (Beam.mk 1 0 (Material.mk "steel" (24 * 10 ^ 9))) 10 2
      = Except.error "x is out of bounds"
    ∧ SimplySupported.getShearForceEquation (Beam.mk 1 0 (Material.mk "steel" (24 * 10 ^ 9))) 10 2
      = Except.error "x is out of bounds" := by
  refine ⟨?_, ?_, ?_, ?_⟩ <;>
    norm_num [SimplySupported.getDeflectionEquation,
      SimplySupported.getBendingMomentEquation, SimplySupported.getShearForceEquation]

/-- C2 counterexample: for `Beam(1, 1, {EI: 1000^4})` with load `1`, every
two-span-unequal equation evaluated at `x = 3` — one unit beyond the total
span length `1 + 1 = 2` — returns a full sample instead of failing with a
position-out-of-bounds error. -/
theorem claimC2_counterexample :
    TwoSpanUnequal.getDeflectionEquation (Beam.mk 1 1 (Material.mk "m" (1000 ^ 4))) 1 3 (some 2)
      = Except.ok (Sample.mk 3 (some (-1 / 6000)) (some 1) none none)
    ∧ TwoSpanUnequal.getBendingMomentEquation (Beam.mk 1 1 (Material.mk "m" (1000 ^ 4))) 1 3
      = Except.ok (Sample.mk 3 (some (7 / 8)) none (some (3 / 8)) (some (-1 / 8)))
    ∧ TwoSpanUnequal.getShearForceEquation (Beam.mk 1 1 (Material.mk "m" (1000 ^ 4))) 1 3
      = Except.ok (Sample.mk 3 (some (-11 / 8)) none none none) := by
  refine ⟨?_, ?_, ?_⟩ <;>
    norm_num [TwoSpanUnequal.getDeflectionEquation, TwoSpanUnequal.getBendingMomentEquation,
      TwoSpanUnequal.getShearForceEquation, TwoSpanUnequal.interiorM,
      TwoSpanUnequal.reactR1, TwoSpanUnequal.reactR2, TwoSpanUnequal.reactR3]

/-- C2 amended: the two-span-unequal equations perform NO bounds check —
at every position `x` (in particular `x < 0` and `x > primarySpan +
secondarySpan`) each of the three equations returns a full sample carrying
that `x` and never fails. -/
theorem claimC2_amended (beam : Beam) (load x : ℚ) (j2opt : Option ℚ) :
    (∃ s : Sample, TwoSpanUnequal.getDeflectionEquation beam load x j2opt = Except.ok s ∧ s.x = x)
    ∧ (∃ s : Sample, TwoSpanUnequal.getBendingMomentEquation beam load x = Except.ok s ∧ s.x = x)
    ∧ (∃ s : Sample, TwoSpanUnequal.getShearForceEquation beam load x = Except.ok s ∧ s.x = x) := by
  refine ⟨?_, ⟨_, rfl, rfl⟩, ⟨_, rfl, rfl⟩⟩
  cases j2opt <;> exact ⟨_, rfl, rfl⟩

/-- C3 counterexample: the engine's invalid-condition error is the fixed
message `'Invalid condition'` (source lines 58, 72, 86) and so cannot carry
the offending condition name: two different unknown names, with different
beams and loads, produce the identical error value. -/
theorem claimC3_counterexample :
    BeamAnalysis.getDeflection (Beam.mk 1 0 (Material.mk "m" 5)) 10 "triple-span"
      = Except.error "Invalid condition"
    ∧ BeamAnalysis.getDeflection (Beam.mk 2 3 (Material.mk "q" 7)) 20 "quad-span"
      = Except.error "Invalid condition" := by
  constructor <;> rfl

/-- C3 amended: for a condition name outside `{simply-supported,
two-span-unequal}` each engine getter fails with the constant error
`'Invalid condition'` — independent of the beam and load and not carrying
the offending name — and for each name in the set each getter returns
`{beam, load, equation}` with the original beam and load and the matching
analyzer's equation. -/
theorem claimC3_amended (beam : Beam) (load : ℚ) (c : String)
    (h1 : c ≠ "simply-supported") (h2 : c ≠ "two-span-unequal") :
    (BeamAnalysis.getDeflection beam load c = Except.error "Invalid condition"
      ∧ BeamAnalysis.getBendingMoment beam load c = Except.error "Invalid condition"
      ∧ BeamAnalysis.getShearForce beam load c = Except.error "Invalid condition")
    ∧ (BeamAnalysis.getDeflection beam load "simply-supported"
        = Except.ok (EngineResult.mk beam load (SimplySupported.getDeflectionEquation beam load))
      ∧ BeamAnalysis.getBendingMoment beam load "simply-supported"
        = Except.ok (EngineResult.mk beam load (SimplySupported.getBendingMomentEquation beam load))
      ∧ BeamAnalysis.getShearForce beam load "simply-supported"
        = Except.ok (EngineResult.mk beam load (SimplySupported.getShearForceEquation beam load)))
    ∧ (BeamAnalysis.getDeflection beam load "two-span-unequal"
        = Except.ok (EngineResult.mk beam load (TwoSpanUnequal.getDeflectionEquation beam load))
      ∧ BeamAnalysis.getBendingMoment beam load "two-span-unequal"
        = Except.ok (EngineResult.mk beam load (TwoSpanUnequal.getBendingMomentEquation beam load))
      ∧ BeamAnalysis.getShearForce beam load "two-span-unequal"
        = Except.ok (EngineResult.mk beam load (TwoSpanUnequal.getShearForceEquation beam load))) := by
  refine ⟨⟨?_, ?_, ?_⟩, ⟨rfl, rfl, rfl⟩, ⟨rfl, rfl, rfl⟩⟩ <;>
    simp [BeamAnalysis.getDeflection, BeamAnalysis.getBendingMoment,
      BeamAnalysis.getShearForce, analyzerTable, h1, h2]

/-- Witness for C3 at `beam = Beam(1, 0, {EI: 5})`, `load = 10`,
condition `"triple-span"`. -/
theorem claimC3_witness :
    "triple-span" ≠ "simply-supported" ∧ "triple-span" ≠ "two-span-unequal" ∧
    ((BeamAnalysis.getDeflection (Beam.mk 1 0 (Material.mk "m" 5)) 10 "triple-span" = Except.error "Invalid condition"
      ∧ BeamAnalysis.getBendingMoment (Beam.mk 1 0 (Material.mk "m" 5)) 10 "triple-span" = Except.error "Invalid condition"
      ∧ BeamAnalysis.getShearForce (Beam.mk 1 0 (Material.mk "m" 5)) 10 "triple-span" = Except.error "Invalid condition")
    ∧ (BeamAnalysis.getDeflection (Beam.mk 1 0 (Material.mk "m" 5)) 10 "simply-supported"
        = Except.ok (EngineResult.mk (Beam.mk 1 0 (Material.mk "m" 5)) 10 (SimplySupported.getDeflectionEquation (Beam.mk 1 0 (Material.mk "m" 5)) 10))
      ∧ BeamAnalysis.getBendingMoment (Beam.mk 1 0 (Material.mk "m" 5)) 10 "simply-supported"
        = Except.ok (EngineResult.mk (Beam.mk 1 0 (Material.mk "m" 5)) 10 (SimplySupported.getBendingMomentEquation (Beam.mk 1 0 (Material.mk "m" 5)) 10))
      ∧ BeamAnalysis.getShearForce (Beam.mk 1 0 (Material.mk "m" 5)) 10 "simply-supported"
        = Except.ok (EngineResult.mk (Beam.mk 1 0 (Material.mk "m" 5)) 10 (SimplySupported.getShearForceEquation (Beam.mk 1 0 (Material.mk "m" 5)) 10)))
    ∧ (BeamAnalysis.getDeflection (Beam.mk 1 0 (Material.mk "m" 5)) 10 "two-span-unequal"
        = Except.ok (EngineResult.mk (Beam.mk 1 0 (Material.mk "m" 5)) 10 (TwoSpanUnequal.getDeflectionEquation (Beam.mk 1 0 (Material.mk "m" 5)) 10))
      ∧ BeamAnalysis.getBendingMoment (Beam.mk 1 0 (Material.mk "m" 5)) 10 "two-span-unequal"
        = Except.ok (EngineResult.mk (Beam.mk 1 0 (Material.mk "m" 5)) 10 (TwoSpanUnequal.getBendingMomentEquation (Beam.mk 1 0 (Material.mk "m" 5)) 10))
      ∧ BeamAnalysis.getShearForce (Beam.mk 1 0 (Material.mk "m" 5)) 10 "two-span-unequal"
        = Except.ok (EngineResult.mk (Beam.mk 1 0 (Material.mk "m" 5)) 10 (TwoSpanUnequal.getShearForceEquation (Beam.mk 1 0 (Material.mk "m" 5)) 10)))) :=
  ⟨by decide, by decide,
    claimC3_amended (Beam.mk 1 0 (Material.mk "m" 5)) 10 "triple-span" (by decide) (by decide)⟩

/-- C6: for equal spans `L1 = L2 = L > 0` the interior reaction `R2` of the
shared derivation equals `(5/4)*w*L`, and the jump of the two-span shear
force across `x = L1` (the jump of `y + w*x`, which is piecewise constant)
equals `(5/4)*w*L`. -/
theorem claimC6_equal_span_R2 (L w : ℚ) (mat : Material) (hL : 0 < L) :
    TwoSpanUnequal.reactR2 L L w = 5 / 4 * w * L
    ∧ ∀ x1 x2 y1 y2 : ℚ, x1 ≤ L → L < x2 →
        yVal (TwoSpanUnequal.getShearForceEquation (Beam.mk L L mat) w x1) = some y1 →
        yVal (TwoSpanUnequal.getShearForceEquation (Beam.mk L L mat) w x2) = some y2 →
        (y2 + w * x2) - (y1 + w * x1) = 5 / 4 * w * L := by
  have hR2 : TwoSpanUnequal.reactR2 L L w = 5 / 4 * w * L := by
    unfold TwoSpanUnequal.reactR2 TwoSpanUnequal.reactR1 TwoSpanUnequal.reactR3
      TwoSpanUnequal.interiorM
    field_simp
    ring
  refine ⟨hR2, fun x1 x2 y1 y2 hx1 hx2 hy1 hy2 => ?_⟩
  simp only [TwoSpanUnequal.getShearForceEquation, yVal] at hy1 hy2
  rw [if_pos hx1, Option.some_inj] at hy1
  rw [if_neg (not_le.mpr hx2), Option.some_inj] at hy2
  rw [← hy1, ← hy2]
  linarith [hR2]

/-- Witness for C6 at `L = 2`, `w = 3`, `x1 = 1`, `x2 = 3`:
`R2 = 15/2 = (5/4)*3*2`, and the shear samples at `x1` and `x2` are
`-3/4` and `3/4`. -/
theorem claimC6_witness :
    (0 : ℚ) < 2 ∧
    (TwoSpanUnequal.reactR2 2 2 3 = 5 / 4 * 3 * 2
    ∧ ∀ x1 x2 y1 y2 : ℚ, x1 ≤ 2 → 2 < x2 →
        yVal (TwoSpanUnequal.getShearForceEquation (Beam.mk 2 2 (Material.mk "m" 5)) 3 x1) = some y1 →
        yVal (TwoSpanUnequal.getShearForceEquation (Beam.mk 2 2 (Material.mk "m" 5)) 3 x2) = some y2 →
        (y2 + 3 * x2) - (y1 + 3 * x1) = 5 / 4 * 3 * 2) :=
  ⟨by norm_num, claimC6_equal_span_R2 2 3 (Material.mk "m" 5) (by norm_num)⟩

/-- C10: for any spans `L1, L2 > 0` and any load `w`, the two-span bending
moment equation returns `y = 0` at `x = 0` and at `x = L1 + L2` (through
the dedicated `x == 0 || x == totalLength` branch of the source, lines
218-219), and at `x = L1` exactly it returns
`y = -(R1*L1 - 0.5*w*L1^2)` (the dedicated `else` branch, line 225). -/
theorem claimC10_two_span_moment_special_points (beam : Beam) (w : ℚ)
    (h1 : 0 < beam.primarySpan) (h2 : 0 < beam.secondarySpan) :
    yVal (TwoSpanUnequal.getBendingMomentEquation beam w 0) = some 0
    ∧ yVal (TwoSpanUnequal.getBendingMomentEquation beam w (beam.primarySpan + beam.secondarySpan)) = some 0
    ∧ yVal (TwoSpanUnequal.getBendingMomentEquation beam w beam.primarySpan)
        = some (-(TwoSpanUnequal.reactR1 beam.primarySpan beam.secondarySpan w * beam.primarySpan
            - (1 / 2) * w * beam.primarySpan ^ 2)) := by
  refine ⟨?_, ?_, ?_⟩
  · simp [TwoSpanUnequal.getBendingMomentEquation, yVal]
  · simp [TwoSpanUnequal.getBendingMomentEquation, yVal]
  · have hne : ¬(beam.primarySpan = 0 ∨ beam.primarySpan = beam.primarySpan + beam.secondarySpan) := by
      push_neg
      exact ⟨h1.ne', by linarith⟩
    simp only [TwoSpanUnequal.getBendingMomentEquation, yVal]
    rw [if_neg hne, if_neg (lt_irrefl beam.primarySpan), if_neg (lt_irrefl beam.primarySpan)]

/-- Witness for C10 at `beam = Beam(1, 2, {EI: 5})`, `w = 24`:
`R1 = 3`, so the moment at `x = L1 = 1` is `-(3*1 - 12) = 9`, and the
endpoint samples are `0`. -/
theorem claimC10_witness :
    (0 : ℚ) < (Beam.mk 1 2 (Material.mk "m" 5)).primarySpan ∧
    (0 : ℚ) < (Beam.mk 1 2 (Material.mk "m" 5)).secondarySpan ∧
    (yVal (TwoSpanUnequal.getBendingMomentEquation (Beam.mk 1 2 (Material.mk "m" 5)) 24 0) = some 0
    ∧ yVal (TwoSpanUnequal.getBendingMomentEquation (Beam.mk 1 2 (Material.mk "m" 5)) 24
        ((Beam.mk 1 2 (Material.mk "m" 5)).primarySpan + (Beam.mk 1 2 (Material.mk "m" 5)).secondarySpan)) = some 0
    ∧ yVal (TwoSpanUnequal.getBendingMomentEquation (Beam.mk 1 2 (Material.mk "m" 5)) 24
        (Beam.mk 1 2 (Material.mk "m" 5)).primarySpan)
        = some (-(TwoSpanUnequal.reactR1 (Beam.mk 1 2 (Material.mk "m" 5)).primarySpan
            (Beam.mk 1 2 (Material.mk "m" 5)).secondarySpan 24 * (Beam.mk 1 2 (Material.mk "m" 5)).primarySpan
            - (1 / 2) * 24 * (Beam.mk 1 2 (Material.mk "m" 5)).primarySpan ^ 2))) :=
  ⟨by norm_num, by norm_num,
    claimC10_two_span_moment_special_points (Beam.mk 1 2 (Material.mk "m" 5)) 24 (by norm_num) (by norm_num)⟩

/-- The two-span bending moment exactly as claim C4 states it (refinement
comparison definition, written from the claim's words, NOT from the
source): positive interior moment `m = (w*L2^3 + w*L1^3)/(8*(L1+L2))`,
reactions from that `m`, and the piecewise value WITHOUT an outer
negation. -/
def momentClaimedC4 (L1 L2 w x : ℚ) : ℚ :=
  let m := (w * L2 ^ 3 + w * L1 ^ 3) / (8 * (L1 + L2))
  let R1 := m / L1 + w * L1 / 2
  let R3 := m / L2 + w * L2 / 2
  let R2 := w * (L1 + L2) - R1 - R3
  if x ≤ L1 then R1 * x - (1 / 2) * w * x ^ 2
  else R1 * x + R2 * (x - L1) - (1 / 2) * w * x ^ 2

/-- C4 counterexample: at `L1 = L2 = 1`, `w = 8`, `x = 1/2` the source's
bending moment equation yields `y = -1/2` (its interior moment is the
NEGATIVE `m = -1` and the whole piecewise expression is negated, source
lines 211, 221), while the formula claimed in C4 yields `3/2`. -/
theorem claimC4_counterexample :
    yVal (TwoSpanUnequal.getBendingMomentEquation (Beam.mk 1 1 (Material.mk "m" 5)) 8 (1 / 2)) = some (-(1 / 2))
    ∧ momentClaimedC4 1 1 8 (1 / 2) = 3 / 2
    ∧ yVal (TwoSpanUnequal.getBendingMomentEquation (Beam.mk 1 1 (Material.mk "m" 5)) 8 (1 / 2))
        ≠ some (momentClaimedC4 1 1 8 (1 / 2)) := by
  have ha : yVal (TwoSpanUnequal.getBendingMomentEquation (Beam.mk 1 1 (Material.mk "m" 5)) 8 (1 / 2))
      = some (-(1 / 2)) := by
    norm_num [TwoSpanUnequal.getBendingMomentEquation, yVal, TwoSpanUnequal.interiorM,
      TwoSpanUnequal.reactR1, TwoSpanUnequal.reactR2, TwoSpanUnequal.reactR3]
  have hb : momentClaimedC4 1 1 8 (1 / 2) = 3 / 2 := by
    norm_num [momentClaimedC4]
  refine ⟨ha, hb, ?_⟩
  rw [ha, hb]
  norm_num

/-- The two-span bending moment the source actually computes, in closed
form: negated interior moment, the same reaction formulas, an outer
negation on each piecewise branch, dedicated zero branches at `x = 0` and
`x = L1 + L2`, and a dedicated branch at `x = L1`. -/
def momentActualC4 (L1 L2 w x : ℚ) : ℚ :=
  let m := (-(w * L2 ^ 3 + w * L1 ^ 3)) / (8 * (L1 + L2))
  let R1 := m / L1 + w * L1 / 2
  let R3 := m / L2 + w * L2 / 2
  let R2 := w * (L1 + L2) - R1 - R3
  if x = 0 ∨ x = L1 + L2 then 0
  else if x < L1 then -(R1 * x - w * x ^ 2 / 2)
  else if x > L1 then -(R1 * x + R2 * (x - L1) - w * x ^ 2 / 2)
  else -(R1 * L1 - w * L1 ^ 2 / 2)

/-- C4 amended: for spans `L1, L2 > 0`, load `w` and every in-range `x`,
the two-span bending moment equation computes `y = momentActualC4 L1 L2 w
x`: the interior moment is `m = -(w*L2^3 + w*L1^3)/(8*(L1+L2))` (negative
of the claimed one), the reactions are `R1 = m/L1 + w*L1/2`,
`R3 = m/L2 + w*L2/2`, `R2 = w*(L1+L2) - R1 - R3`, and the returned value is
the NEGATION of the claimed piecewise expression, with dedicated zero
branches at `x = 0` and `x = L1 + L2` and a dedicated branch at
`x = L1`. -/
theorem claimC4_amended (beam : Beam) (w x : ℚ)
    (_h1 : 0 < beam.primarySpan) (_h2 : 0 < beam.secondarySpan)
    (_hx0 : 0 ≤ x) (_hxT : x ≤ beam.primarySpan + beam.secondarySpan) :
    yVal (TwoSpanUnequal.getBendingMomentEquation beam w x)
      = some (momentActualC4 beam.primarySpan beam.secondarySpan w x) := by
  simp only [TwoSpanUnequal.getBendingMomentEquation, yVal, momentActualC4,
    TwoSpanUnequal.interiorM, TwoSpanUnequal.reactR1, TwoSpanUnequal.reactR3,
    TwoSpanUnequal.reactR2, Option.some_inj]
  split_ifs <;> ring

/-- Witness for C4 amended at `beam = Beam(1, 1, {EI: 5})`, `w = 8`,
`x = 1/2`. -/
theorem claimC4_witness :
    (0 : ℚ) < (Beam.mk 1 1 (Material.mk "m" 5)).primarySpan ∧
    (0 : ℚ) < (Beam.mk 1 1 (Material.mk "m" 5)).secondarySpan ∧
    (0 : ℚ) ≤ 1 / 2 ∧
    (1 / 2 : ℚ) ≤ (Beam.mk 1 1 (Material.mk "m" 5)).primarySpan + (Beam.mk 1 1 (Material.mk "m" 5)).secondarySpan ∧
    yVal (TwoSpanUnequal.getBendingMomentEquation (Beam.mk 1 1 (Material.mk "m" 5)) 8 (1 / 2))
      = some (momentActualC4 (Beam.mk 1 1 (Material.mk "m" 5)).primarySpan
          (Beam.mk 1 1 (Material.mk "m" 5)).secondarySpan 8 (1 / 2)) :=
  ⟨by norm_num, by norm_num, by norm_num, by norm_num,
    claimC4_amended (Beam.mk 1 1 (Material.mk "m" 5)) 8 (1 / 2)
      (by norm_num) (by norm_num) (by norm_num) (by norm_num)⟩

/-- C5 counterexample: for `Beam(1, 1, {EI: 1000^4})`, `w = 8`,
`x = 1/2`, invoking the two-span deflection equation with the scale factor
OMITTED yields a NaN deflection (`y = none`: `j2` has no default in
`function (x, j2)`, source line 166), while invoking it with scale factor
`2` yields `y = -1/12`; the two results are different objects. -/
theorem claimC5_counterexample :
    yVal (TwoSpanUnequal.getDeflectionEquation (Beam.mk 1 1 (Material.mk "m" (1000 ^ 4))) 8 (1 / 2) none) = none
    ∧ yVal (TwoSpanUnequal.getDeflectionEquation (Beam.mk 1 1 (Material.mk "m" (1000 ^ 4))) 8 (1 / 2) (some 2))
        = some (-(1 / 12))
    ∧ TwoSpanUnequal.getDeflectionEquation (Beam.mk 1 1 (Material.mk "m" (1000 ^ 4))) 8 (1 / 2) none
        ≠ TwoSpanUnequal.getDeflectionEquation (Beam.mk 1 1 (Material.mk "m" (1000 ^ 4))) 8 (1 / 2) (some 2) := by
  have ha : yVal (TwoSpanUnequal.getDeflectionEquation (Beam.mk 1 1 (Material.mk "m" (1000 ^ 4))) 8 (1 / 2) none) = none := by
    rfl
  have hb : yVal (TwoSpanUnequal.getDeflectionEquation (Beam.mk 1 1 (Material.mk "m" (1000 ^ 4))) 8 (1 / 2) (some 2))
      = some (-(1 / 12)) := by
    norm_num [TwoSpanUnequal.getDeflectionEquation, yVal, TwoSpanUnequal.interiorM,
      TwoSpanUnequal.reactR1, TwoSpanUnequal.reactR2, TwoSpanUnequal.reactR3]
  refine ⟨ha, hb, fun h => ?_⟩
  have hc := congrArg yVal h
  rw [ha, hb] at hc
  exact Option.noConfusion hc

/-- The two-span deflection the source actually computes, in closed form:
stiffness normalized by `EI' = EI / 1000^4` (source line 179, NOT
`1000^3`), the `x <= L1` branch scaled by `*1000*j2*1000`, the `x > L1`
branch scaled by `*1000*j2`, and both divided by `1000000` at the end
(source line 198). -/
def deflectionActualC5 (L1 L2 EI w x j2 : ℚ) : ℚ :=
  if x ≤ L1 then
    x / (24 * (EI / 1000 ^ 4)) *
      (4 * TwoSpanUnequal.reactR1 L1 L2 w * x ^ 2 - w * x ^ 3 + w * L1 ^ 3
        - 4 * TwoSpanUnequal.reactR1 L1 L2 w * L1 ^ 2) * 1000 * j2 * 1000 / 1000000
  else
    (TwoSpanUnequal.reactR1 L1 L2 w * x / 6 * (x ^ 2 - L1 ^ 2)
      + TwoSpanUnequal.reactR2 L1 L2 w * x / 6 * (x ^ 2 - 3 * L1 * x + 3 * L1 ^ 2)
      - TwoSpanUnequal.reactR2 L1 L2 w * L1 ^ 3 / 6
      - w * x / 24 * (x ^ 3 - L1 ^ 3)) / (EI / 1000 ^ 4) * 1000 * j2 / 1000000

/-- C5 amended: the two-span deflection equation takes `x` and a scale
factor `j2` with NO default — invoking it with `j2` omitted returns a
sample whose `y` is NaN (`none`) — and with `j2` supplied it computes
`deflectionActualC5`, normalizing by `EI' = EI/1000^4` and using
branch-dependent scaling (`*1000*j2*1000` for `x <= L1`, `*1000*j2` for
`x > L1`, then `/1000000`), a convention different from the
simply-supported deflection equation's `EI/1000^3` and `*j2*1000`. -/
theorem claimC5_amended (beam : Beam) (w x j2 : ℚ) :
    TwoSpanUnequal.getDeflectionEquation beam w x none
      = Except.ok (Sample.mk x none (some (beam.material.EI / 1000 ^ 4)) none none)
    ∧ yVal (TwoSpanUnequal.getDeflectionEquation beam w x (some j2))
      = some (deflectionActualC5 beam.primarySpan beam.secondarySpan beam.material.EI w x j2) := by
  constructor
  · rfl
  · simp only [TwoSpanUnequal.getDeflectionEquation, yVal, deflectionActualC5, Option.some_inj]
    split_ifs <;> ring
